import Mathlib

/-!
Verification of the truenas_smart_parser health-classification engine.

The definitions below are a shallow embedding of
`src/truenas_smart_parser/parser.py`:

* `DriveHealth` / `SystemHealth` embed the frozen dataclasses;
* `tempFlags`, `classify`, `systemHealthOfDrives` embed the severity
  classification and aggregation tail of `analyze_smart_directory`
  (lines 842-917, plus the empty-directory early returns);
* `analyze_ata_health` / `analyze_nvme_health` embed the per-device
  health evaluators over a list model of the polars DataFrame.

Python floats are modelled as exact rationals (all values involved are
decoded integers, small decimal thresholds, or integer means, so the
arithmetic is exact); datetimes are modelled as integer seconds, with
`timedelta(hours=24)` as `86400`.
-/

/-- Health severity tier assigned by the fleet aggregator. -/
inductive Severity where
  | healthy
  | warning
  | critical
deriving DecidableEq, Repr

/-- Embedding of the frozen dataclass `DriveHealth` (parser.py lines 44-81).
Optional Python fields (`float | None`, `datetime | None`) become `Option`;
the source field `unsafe_shutdowns` is spelled `abrupt_shutdowns` here. -/
structure DriveHealth where
  device_path : String
  drive_type : String
  serial : String
  temperature_current : Option ℚ
  temperature_max_24h : Option ℚ
  temperature_mean_24h : Option ℚ
  temperature_warning : Option ℚ := none
  temperature_critical : Option ℚ := none
  temperature_operational_max : Option ℚ := none
  reallocated_sectors_total : Int := 0
  pending_sectors_total : Int := 0
  uncorrectable_sectors_total : Int := 0
  read_errors_total : Int := 0
  media_errors_total : Int := 0
  reallocated_sectors_24h : Int := 0
  pending_sectors_24h : Int := 0
  uncorrectable_sectors_24h : Int := 0
  read_errors_24h : Int := 0
  media_errors_24h : Int := 0
  available_spare_pct : Option ℚ := none
  percentage_used : Option ℚ := none
  abrupt_shutdowns : Int := 0
  power_on_hours : Int := 0
  power_cycles : Int := 0
  last_updated : Option Int := none
deriving Repr, DecidableEq

/-- Embedding of the frozen dataclass `SystemHealth` (parser.py lines 455-476). -/
structure SystemHealth where
  drives : List DriveHealth
  total_drives : Nat
  healthy_drives : Nat
  warning_drives : Nat
  critical_drives : Nat
  total_errors_24h : Int
  max_temperature : ℚ
  total_reallocated_sectors : Int
  total_pending_sectors : Int
  total_media_errors : Int
  oldest_drive_hours : Int
  newest_drive_hours : Int
  nvme_drives : Nat
  ata_drives : Nat
  last_updated : Int
deriving Repr

/-- Python truthiness of a `float | None` value: `None` and `0.0` are falsy. -/
def truthy (x : Option ℚ) : Bool :=
  match x with
  | none => false
  | some v => v != 0

/-- Temperature flags of the classification loop (parser.py lines 869-883):
first component is `temp_is_critical`, second is `temp_is_warning`.  The
source guards each threshold with Python truthiness (`drive.temperature_x
and current >= drive.temperature_x`) in an if/elif chain. -/
def tempFlags (d : DriveHealth) : Bool × Bool :=
  match d.temperature_current with
  | none => (false, false)
  | some t =>
    if truthy d.temperature_critical && decide (d.temperature_critical.getD 0 ≤ t) then
      (true, false)
    else if truthy d.temperature_warning && decide (d.temperature_warning.getD 0 ≤ t) then
      (false, true)
    else if truthy d.temperature_operational_max
        && decide (d.temperature_operational_max.getD 0 ≤ t) then
      (false, true)
    else (false, false)

/-- Severity assignment of the classification loop (parser.py lines 885-899):
critical on any new 24h reallocated/pending/media errors or critical
temperature; else warning on cumulative errors, warning temperature, or a
truthy NVMe spare percentage below 10; else healthy. -/
def classify (d : DriveHealth) : Severity :=
  if d.reallocated_sectors_24h > 0 ∨ d.pending_sectors_24h > 0 ∨
      d.media_errors_24h > 0 ∨ (tempFlags d).1 = true then
    Severity.critical
  else if d.reallocated_sectors_total > 0 ∨ d.pending_sectors_total > 0 ∨
      d.media_errors_total > 0 ∨ (tempFlags d).2 = true ∨
      (d.drive_type = "nvme" ∧ truthy d.available_spare_pct = true ∧
        d.available_spare_pct.getD 0 < 10) then
    Severity.warning
  else
    Severity.healthy

/-- Maximum of a list of rationals, `0` for the empty list (the Python code
only takes `max` of a nonempty list and uses `0.0` when the list is empty). -/
def ratListMax : List ℚ → ℚ
  | [] => 0
  | x :: xs => xs.foldl max x

/-- Maximum of a list of integers, `0` for the empty list. -/
def intListMax : List Int → Int
  | [] => 0
  | x :: xs => xs.foldl max x

/-- Minimum of a list of integers, `0` for the empty list. -/
def intListMin : List Int → Int
  | [] => 0
  | x :: xs => xs.foldl min x

/-- Aggregation tail of `analyze_smart_directory` (parser.py lines 842-917):
given the analyzed drives, compute the aggregate metrics and severity
counts.  The empty case reproduces the early returns at lines 759-775 and
824-840 (all counts zero).  `now` stands for `datetime.now()`. -/
def systemHealthOfDrives (now : Int) (drives : List DriveHealth) : SystemHealth :=
  if drives.isEmpty then
    { drives := []
      total_drives := 0
      healthy_drives := 0
      warning_drives := 0
      critical_drives := 0
      total_errors_24h := 0
      max_temperature := 0
      total_reallocated_sectors := 0
      total_pending_sectors := 0
      total_media_errors := 0
      oldest_drive_hours := 0
      newest_drive_hours := 0
      nvme_drives := 0
      ata_drives := 0
      last_updated := now }
  else
    let power_hours := (drives.map (fun d => d.power_on_hours)).filter (fun h => h > 0)
    { drives := drives
      total_drives := drives.length
      healthy_drives := (drives.filter (fun d => classify d = Severity.healthy)).length
      warning_drives := (drives.filter (fun d => classify d = Severity.warning)).length
      critical_drives := (drives.filter (fun d => classify d = Severity.critical)).length
      total_errors_24h :=
        (drives.map (fun d => d.reallocated_sectors_24h + d.pending_sectors_24h +
          d.uncorrectable_sectors_24h + d.media_errors_24h)).sum
      max_temperature := ratListMax (drives.filterMap (fun d => d.temperature_current))
      total_reallocated_sectors := (drives.map (fun d => d.reallocated_sectors_total)).sum
      total_pending_sectors := (drives.map (fun d => d.pending_sectors_total)).sum
      total_media_errors := (drives.map (fun d => d.media_errors_total)).sum
      oldest_drive_hours := intListMax power_hours
      newest_drive_hours := intListMin power_hours
      nvme_drives := (drives.filter (fun d => d.drive_type = "nvme")).length
      ata_drives := (drives.filter (fun d => d.drive_type = "ata")).length
      last_updated := now }

/-- One decoded row of an ATA attrlog frame: a timestamp plus the parsed
`(attr_id, normalized, raw)` triplets in line order (parser.py lines 150-166). -/
structure AtaRecord where
  timestamp : Int
  attrs : List (Nat × Int × Int)
deriving Repr

/-- Raw value of attribute `id` in one record.  The source stores triplets in
a Python dict keyed by id, so a duplicated id keeps the last occurrence. -/
def AtaRecord.rawOf (r : AtaRecord) (id : Nat) : Option Int :=
  ((r.attrs.filter (fun a => a.1 = id)).getLast?).map (fun a => a.2.2)

/-- Whether the frame has a column for attribute `id`: a polars DataFrame
built from row dicts has a column exactly when some row supplied the key. -/
def ataColExists (df : List AtaRecord) (id : Nat) : Bool :=
  df.any (fun r => (r.rawOf id).isSome)

/-- Row-dict lookup `row.get(key, dflt)` over the frame `df`: every frame
column is a key of the row dict (value null when the row lacks it), so a
present-but-null cell yields Python `None` — modelled as `none`, which makes
any later arithmetic on it fail. -/
def ataRowGetD (df : List AtaRecord) (r : AtaRecord) (id : Nat) (dflt : Int) : Option Int :=
  if ataColExists df id then r.rawOf id else some dflt

/-- Trailing 24h window (parser.py lines 253-255): records whose timestamp is
`≥ max timestamp − 24h`, with timestamps in seconds. -/
def ataWindow (df : List AtaRecord) : List AtaRecord :=
  df.filter (fun r => intListMax (df.map (fun q => q.timestamp)) - 86400 ≤ r.timestamp)

/-- Threshold dict passed to the analyzers: each key of the Python
`dict[str, float | None]` may be absent (`none`) or present with an optional
value (`some v`), matching `dict.get` semantics. -/
structure ThresholdDict where
  warning : Option (Option ℚ) := none
  critical : Option (Option ℚ) := none
  operational_max : Option (Option ℚ) := none
deriving Repr

/-- Python `dict.get(key, dflt)`: the default applies only when the key is
absent, not when it is present with value `None`. -/
def dictGetD (entry : Option (Option ℚ)) (dflt : Option ℚ) : Option ℚ :=
  match entry with
  | none => dflt
  | some v => v

/-- Conversion of an optional integer to an optional rational, the Python
`float(x) if x is not None else None`. -/
def ratOfInt? (x : Option Int) : Option ℚ :=
  x.map (fun v => (v : ℚ))

/-- The DriveHealth built by both analyzers for an empty frame
(parser.py lines 239-247 and 364-372): explicit `None` temperatures, every
other field left at its dataclass default. -/
def emptyDriveHealth (dtype path serial : String) : DriveHealth :=
  { device_path := path
    drive_type := dtype
    serial := serial
    temperature_current := none
    temperature_max_24h := none
    temperature_mean_24h := none }

/-- Per-counter 24h delta for ATA (parser.py lines 294-321): guarded by the
column-existence check `attr in first_24h`, then `max(0, total − first)`. -/
def ataDelta (df : List AtaRecord) (first24 : AtaRecord) (id : Nat) (total : Int) :
    Option Int :=
  if ataColExists df id then
    (ataRowGetD df first24 id 0).map (fun fv => max 0 (total - fv))
  else some 0

/-- Embedding of `analyze_ata_health` (parser.py lines 234-356).  The result
is `none` when the source would fault on a null cell: a consumed column that
exists in the frame but is null in the row being read makes the Python code
either raise a TypeError in the delta subtraction or store `None` in an
`int`-typed DriveHealth field (which then faults in classification or
aggregation); both outcomes are modelled as `none`. -/
def analyze_ata_health (df : List AtaRecord) (serial : String) (device_path : String)
    (thresholds : Option ThresholdDict) : Option DriveHealth :=
  if df.isEmpty then some (emptyDriveHealth "ata" device_path serial)
  else do
    let latest ← df.getLast?
    let now := intListMax (df.map (fun r => r.timestamp))
    let df24 := ataWindow df
    let temp_current : Option Int := (latest.rawOf 194).map (fun v => v % 256)
    let decoded_temps : List Int :=
      if (!df24.isEmpty) && ataColExists df 194 then
        (df24.filterMap (fun r => r.rawOf 194)).map (fun v => v % 256)
      else []
    let temp_max_24h : Option ℚ :=
      if decoded_temps.isEmpty then none else some ((intListMax decoded_temps : Int) : ℚ)
    let temp_mean_24h : Option ℚ :=
      if decoded_temps.isEmpty then none
      else some ((decoded_temps.map (fun v => (v : ℚ))).sum / (decoded_temps.length : ℚ))
    let reallocated_total ← ataRowGetD df latest 5 0
    let pending_total ← ataRowGetD df latest 197 0
    let uncorrectable_total ← ataRowGetD df latest 198 0
    let read_errors_total ← ataRowGetD df latest 1 0
    let deltas ←
      if df24.length > 1 then
        match df24.head? with
        | none => some (0, 0, 0, 0)
        | some first24 => do
          let reallocated_24h ← ataDelta df first24 5 reallocated_total
          let pending_24h ← ataDelta df first24 197 pending_total
          let uncorrectable_24h ← ataDelta df first24 198 uncorrectable_total
          let read_errors_24h ← ataDelta df first24 1 read_errors_total
          pure (reallocated_24h, pending_24h, uncorrectable_24h, read_errors_24h)
      else pure ((0 : Int), (0 : Int), (0 : Int), (0 : Int))
    let power_on_hours ← ataRowGetD df latest 9 0
    let power_cycles ← ataRowGetD df latest 12 0
    let t := thresholds.getD {}
    pure
      { device_path := device_path
        drive_type := "ata"
        serial := serial
        temperature_current := ratOfInt? temp_current
        temperature_max_24h := temp_max_24h
        temperature_mean_24h := temp_mean_24h
        temperature_warning := dictGetD t.warning none
        temperature_critical := dictGetD t.critical (some 70)
        temperature_operational_max := dictGetD t.operational_max (some 60)
        reallocated_sectors_total := reallocated_total
        pending_sectors_total := pending_total
        uncorrectable_sectors_total := uncorrectable_total
        read_errors_total := read_errors_total
        reallocated_sectors_24h := deltas.1
        pending_sectors_24h := deltas.2.1
        uncorrectable_sectors_24h := deltas.2.2.1
        read_errors_24h := deltas.2.2.2
        power_on_hours := power_on_hours
        power_cycles := power_cycles
        last_updated := some now }

/-- A value stored by the NVMe decoder (parser.py lines 202-220): an integer
for the fixed integer-valued names, a rational for the two percentage names,
or the raw string otherwise (also the fallback when numeric parsing fails). -/
inductive NvmeValue where
  | intval (v : Int)
  | fltval (v : ℚ)
  | strval (s : String)
deriving Repr, DecidableEq

/-- One decoded row of an NVMe attrlog frame: a timestamp plus the parsed
`(name, value)` pairs in line order. -/
structure NvmeRecord where
  timestamp : Int
  attrs : List (String × NvmeValue)
deriving Repr

/-- Value of attribute `name` in one record; dict semantics, last write wins. -/
def NvmeRecord.valOf (r : NvmeRecord) (name : String) : Option NvmeValue :=
  ((r.attrs.filter (fun a => a.1 = name)).getLast?).map (fun a => a.2)

/-- Whether the frame has a column named `name`. -/
def nvmeColExists (df : List NvmeRecord) (name : String) : Bool :=
  df.any (fun r => (r.valOf name).isSome)

/-- Numeric view of a stored value.  A string cell reaching a numeric context
makes the source fault (TypeError in arithmetic or comparison) or store an
ill-typed field; modelled as `none`.  A frame whose column mixes types cannot
come from the source parser (polars enforces one dtype per column). -/
def nvmeNum (v : NvmeValue) : Option ℚ :=
  match v with
  | NvmeValue.intval n => some (n : ℚ)
  | NvmeValue.fltval q => some q
  | NvmeValue.strval _ => none

/-- Integer view of a stored value (for the int-typed counters). -/
def nvmeInt (v : NvmeValue) : Option Int :=
  match v with
  | NvmeValue.intval n => some n
  | NvmeValue.fltval _ => none
  | NvmeValue.strval _ => none

/-- Fetch of an optional numeric field via `row.get(name)` (no default, as
used for temperature and the two percentages): an absent key gives Python
`None`, modelled `some none`; a string value in this numeric position makes
the source fault when the value is used, modelled `none`. -/
def nvmeGetNum (r : NvmeRecord) (name : String) : Option (Option ℚ) :=
  match r.valOf name with
  | none => some none
  | some v => (nvmeNum v).map some

/-- Row-dict lookup `row.get(key, dflt)` over an NVMe frame, integer-valued:
like `ataRowGetD`, a present-but-null or non-integer cell yields `none`. -/
def nvmeRowGetIntD (df : List NvmeRecord) (r : NvmeRecord) (name : String)
    (dflt : Int) : Option Int :=
  if nvmeColExists df name then (r.valOf name).bind nvmeInt else some dflt

/-- Trailing 24h window for NVMe frames (parser.py lines 378-380). -/
def nvmeWindow (df : List NvmeRecord) : List NvmeRecord :=
  df.filter (fun r => intListMax (df.map (fun q => q.timestamp)) - 86400 ≤ r.timestamp)

/-- Media-error 24h delta for NVMe (parser.py lines 397-403): guarded by the
column-existence check, then `max(0, total − first)`. -/
def nvmeDelta (df : List NvmeRecord) (first24 : NvmeRecord) (name : String)
    (total : Int) : Option Int :=
  if nvmeColExists df name then
    (nvmeRowGetIntD df first24 name 0).map (fun fv => max 0 (total - fv))
  else some 0

/-- Maximum of a list of rationals as an optional value (polars `Series.max`:
`None` on an all-null column). -/
def ratListMaxOpt (l : List ℚ) : Option ℚ :=
  match l with
  | [] => none
  | x :: xs => some (xs.foldl max x)

/-- Mean of a list of rationals as an optional value (polars `Series.mean`). -/
def ratListMeanOpt (l : List ℚ) : Option ℚ :=
  match l with
  | [] => none
  | _ => some (l.sum / (l.length : ℚ))

/-- Embedding of `analyze_nvme_health` (parser.py lines 359-435).  As with
the ATA analyzer, `none` models the executions where a null or string cell
reaches a numeric context and the source faults or builds an ill-typed
DriveHealth. -/
def analyze_nvme_health (df : List NvmeRecord) (serial : String) (device_path : String)
    (thresholds : Option ThresholdDict) : Option DriveHealth :=
  if df.isEmpty then some (emptyDriveHealth "nvme" device_path serial)
  else do
    let latest ← df.getLast?
    let now := intListMax (df.map (fun r => r.timestamp))
    let df24 := nvmeWindow df
    let temp_current ← nvmeGetNum latest "temperature"
    let window_temps : List ℚ :=
      if (!df24.isEmpty) && nvmeColExists df "temperature" then
        df24.filterMap (fun r => (r.valOf "temperature").bind nvmeNum)
      else []
    let temp_max_24h := ratListMaxOpt window_temps
    let temp_mean_24h := ratListMeanOpt window_temps
    let media_errors_total ← nvmeRowGetIntD df latest "media_and_data_integrity_errors" 0
    let media_errors_24h ←
      if df24.length > 1 then
        match df24.head? with
        | none => some 0
        | some first24 =>
          nvmeDelta df first24 "media_and_data_integrity_errors" media_errors_total
      else some 0
    let available_spare ← nvmeGetNum latest "available_spare"
    let percentage_used ← nvmeGetNum latest "percentage_used"
    let abrupt_shutdowns ← nvmeRowGetIntD df latest "unsafe_shutdowns" 0
    let power_on_hours ← nvmeRowGetIntD df latest "power_on_hours" 0
    let power_cycles ← nvmeRowGetIntD df latest "power_cycles" 0
    let t := thresholds.getD {}
    pure
      { device_path := device_path
        drive_type := "nvme"
        serial := serial
        temperature_current := temp_current
        temperature_max_24h := temp_max_24h
        temperature_mean_24h := temp_mean_24h
        temperature_warning := dictGetD t.warning (some 85)
        temperature_critical := dictGetD t.critical (some 95)
        temperature_operational_max := dictGetD t.operational_max (some 85)
        media_errors_total := media_errors_total
        media_errors_24h := media_errors_24h
        available_spare_pct := available_spare
        percentage_used := percentage_used
        abrupt_shutdowns := abrupt_shutdowns
        power_on_hours := power_on_hours
        power_cycles := power_cycles
        last_updated := some now }

theorem classify_filter_partition (l : List DriveHealth) :
    (l.filter (fun d => classify d = Severity.healthy)).length +
      (l.filter (fun d => classify d = Severity.warning)).length +
      (l.filter (fun d => classify d = Severity.critical)).length = l.length := by
  induction l with
  | nil => rfl
  | cons x xs ih =>
    cases h : classify x <;> simp [List.filter_cons, h] <;> omega

/-- C9: the severity counts produced by the directory analysis partition the
fleet (healthy + warning + critical = total) and the drive total equals the
number of DriveHealth records. -/
theorem severity_counts_partition (now : Int) (drives : List DriveHealth) :
    (systemHealthOfDrives now drives).healthy_drives +
        (systemHealthOfDrives now drives).warning_drives +
        (systemHealthOfDrives now drives).critical_drives =
      (systemHealthOfDrives now drives).total_drives ∧
    (systemHealthOfDrives now drives).total_drives =
      (systemHealthOfDrives now drives).drives.length := by
  unfold systemHealthOfDrives
  by_cases h : drives.isEmpty
  · simp [h]
  · simp [h, classify_filter_partition]

/-- C10: a temperature threshold whose value is 0 is treated exactly like an
absent threshold by the severity classification — Python truthiness makes a
0.0 threshold skip its comparison. -/
theorem zero_threshold_ignored (d : DriveHealth) :
    classify { d with temperature_critical := some 0 } =
        classify { d with temperature_critical := none } ∧
    classify { d with temperature_warning := some 0 } =
        classify { d with temperature_warning := none } ∧
    classify { d with temperature_operational_max := some 0 } =
        classify { d with temperature_operational_max := none } := by
  refine ⟨?_, ?_, ?_⟩ <;>
    · unfold classify tempFlags
      cases d.temperature_current <;> simp [truthy]

/-- C6: for an empty series both health evaluators return, without failing, a
DriveHealth whose temperature, wear and timestamp fields are all unset and
whose counters are all zero. -/
theorem empty_series_analysis (serial path : String) (tA tN : Option ThresholdDict) :
    analyze_ata_health [] serial path tA = some (emptyDriveHealth "ata" path serial) ∧
    analyze_nvme_health [] serial path tN = some (emptyDriveHealth "nvme" path serial) ∧
    (∀ dtype,
      (emptyDriveHealth dtype path serial).temperature_current = none ∧
      (emptyDriveHealth dtype path serial).temperature_max_24h = none ∧
      (emptyDriveHealth dtype path serial).temperature_mean_24h = none ∧
      (emptyDriveHealth dtype path serial).temperature_warning = none ∧
      (emptyDriveHealth dtype path serial).temperature_critical = none ∧
      (emptyDriveHealth dtype path serial).temperature_operational_max = none ∧
      (emptyDriveHealth dtype path serial).reallocated_sectors_total = 0 ∧
      (emptyDriveHealth dtype path serial).pending_sectors_total = 0 ∧
      (emptyDriveHealth dtype path serial).uncorrectable_sectors_total = 0 ∧
      (emptyDriveHealth dtype path serial).read_errors_total = 0 ∧
      (emptyDriveHealth dtype path serial).media_errors_total = 0 ∧
      (emptyDriveHealth dtype path serial).reallocated_sectors_24h = 0 ∧
      (emptyDriveHealth dtype path serial).pending_sectors_24h = 0 ∧
      (emptyDriveHealth dtype path serial).uncorrectable_sectors_24h = 0 ∧
      (emptyDriveHealth dtype path serial).read_errors_24h = 0 ∧
      (emptyDriveHealth dtype path serial).media_errors_24h = 0 ∧
      (emptyDriveHealth dtype path serial).available_spare_pct = none ∧
      (emptyDriveHealth dtype path serial).percentage_used = none ∧
      (emptyDriveHealth dtype path serial).abrupt_shutdowns = 0 ∧
      (emptyDriveHealth dtype path serial).power_on_hours = 0 ∧
      (emptyDriveHealth dtype path serial).power_cycles = 0 ∧
      (emptyDriveHealth dtype path serial).last_updated = none) := by
  refine ⟨rfl, rfl, fun dtype => ?_⟩
  repeat (constructor <;> try rfl)

/-- C5: the trailing 24h window is inclusive at its lower boundary — for both
families a record whose timestamp is exactly (max timestamp − 24h) belongs to
the window used for delta and peak computations. -/
theorem window_boundary_inclusive :
    (∀ (df : List AtaRecord) (r : AtaRecord), r ∈ df →
      r.timestamp = intListMax (df.map (fun q => q.timestamp)) - 86400 →
      r ∈ ataWindow df) ∧
    (∀ (df : List NvmeRecord) (r : NvmeRecord), r ∈ df →
      r.timestamp = intListMax (df.map (fun q => q.timestamp)) - 86400 →
      r ∈ nvmeWindow df) := by
  constructor
  · intro df r hmem heq
    simp [ataWindow, List.mem_filter, hmem, heq]
  · intro df r hmem heq
    simp [nvmeWindow, List.mem_filter, hmem, heq]

/-- A two-record ATA frame whose first record sits exactly on the 24h
boundary of the second. -/
def boundaryAtaDf : List AtaRecord :=
  [ { timestamp := 0, attrs := [(194, 69, 31)] },
    { timestamp := 86400, attrs := [(194, 69, 32)] } ]

/-- A two-record NVMe frame whose first record sits exactly on the 24h
boundary of the second. -/
def boundaryNvmeDf : List NvmeRecord :=
  [ { timestamp := 0, attrs := [("temperature", NvmeValue.intval 31)] },
    { timestamp := 86400, attrs := [("temperature", NvmeValue.intval 32)] } ]

theorem window_boundary_inclusive_witness :
    { timestamp := 0, attrs := [(194, 69, 31)] } ∈ ataWindow boundaryAtaDf ∧
    { timestamp := 0, attrs := [("temperature", NvmeValue.intval 31)] } ∈
      nvmeWindow boundaryNvmeDf :=
  ⟨window_boundary_inclusive.1 boundaryAtaDf _ (by simp [boundaryAtaDf]) (by decide),
   window_boundary_inclusive.2 boundaryNvmeDf _ (by simp [boundaryNvmeDf]) (by decide)⟩

/-- A drive with its critical threshold set to the value 0 and a current
temperature above it, with no error counters. -/
def critZeroThresholdDrive : DriveHealth :=
  { emptyDriveHealth "ata" "/dev/sda" "SER" with
      temperature_current := some 10
      temperature_critical := some 0 }

/-- C1 counterexample: this drive has its critical threshold set (to 0) and a
current temperature of 10 ≥ 0, so the claim as stated requires Critical; the
classifier returns Healthy because the Python truthiness guard skips a 0.0
threshold. -/
theorem classify_critical_zero_threshold_cex :
    critZeroThresholdDrive.temperature_current = some 10 ∧
    critZeroThresholdDrive.temperature_critical = some 0 ∧
    (0 : ℚ) ≤ 10 ∧
    critZeroThresholdDrive.reallocated_sectors_24h = 0 ∧
    critZeroThresholdDrive.pending_sectors_24h = 0 ∧
    critZeroThresholdDrive.media_errors_24h = 0 ∧
    classify critZeroThresholdDrive = Severity.healthy := by
  refine ⟨rfl, rfl, by norm_num, rfl, rfl, rfl, ?_⟩
  decide

/-- C1 (amended): any positive 24h reallocated/pending/media delta, or a
current temperature at or above a critical threshold that is set to a
nonzero value, makes the classifier return Critical — the error-delta
disjuncts fire regardless of temperature. -/
theorem classify_critical_of_new_errors_or_hot (d : DriveHealth)
    (h : d.reallocated_sectors_24h > 0 ∨ d.pending_sectors_24h > 0 ∨
      d.media_errors_24h > 0 ∨
      (∃ t c, d.temperature_current = some t ∧ d.temperature_critical = some c ∧
        c ≠ 0 ∧ c ≤ t)) :
    classify d = Severity.critical := by
  unfold classify
  rcases h with h | h | h | ⟨t, c, ht, hc, hc0, hle⟩
  · rw [if_pos (Or.inl h)]
  · rw [if_pos (Or.inr (Or.inl h))]
  · rw [if_pos (Or.inr (Or.inr (Or.inl h)))]
  · have hflag : (tempFlags d).1 = true := by
      unfold tempFlags
      rw [ht, hc]
      simp [truthy, hc0, hle]
    rw [if_pos (Or.inr (Or.inr (Or.inr hflag)))]

/-- A drive with one new reallocated sector in the 24h window. -/
def newErrorDrive : DriveHealth :=
  { emptyDriveHealth "ata" "/dev/sda" "SER" with reallocated_sectors_24h := 1 }

theorem classify_critical_of_new_errors_or_hot_witness :
    newErrorDrive.reallocated_sectors_24h > 0 ∧
    classify newErrorDrive = Severity.critical :=
  ⟨by decide, classify_critical_of_new_errors_or_hot newErrorDrive (Or.inl (by decide))⟩

/-- An NVMe drive whose available spare percentage is 0, with every other
trigger clear. -/
def spareZeroDrive : DriveHealth :=
  { emptyDriveHealth "nvme" "/dev/nvme0" "SER" with available_spare_pct := some 0 }

/-- C2 counterexample: an NVMe drive whose available_spare_pct is set to 0
(and no other trigger holds) is classified Healthy, not Warning — the Python
truthiness guard `spare and spare < 10` skips the falsy value 0.0. -/
theorem classify_spare_zero_cex :
    spareZeroDrive.drive_type = "nvme" ∧
    spareZeroDrive.available_spare_pct = some 0 ∧
    (0 : ℚ) < 10 ∧
    classify spareZeroDrive = Severity.healthy := by
  refine ⟨rfl, rfl, by norm_num, ?_⟩
  decide

/-- The spec's Warning condition (§4.4 rule 2), amended so that temperature
thresholds and the spare percentage only count when set to a nonzero value. -/
def specWarningCond (d : DriveHealth) : Prop :=
  d.reallocated_sectors_total > 0 ∨ d.pending_sectors_total > 0 ∨
  d.media_errors_total > 0 ∨
  (∃ t w, d.temperature_current = some t ∧ d.temperature_warning = some w ∧
    w ≠ 0 ∧ w ≤ t) ∨
  (∃ t m, d.temperature_current = some t ∧ d.temperature_operational_max = some m ∧
    m ≠ 0 ∧ m ≤ t) ∨
  (d.drive_type = "nvme" ∧
    ∃ s, d.available_spare_pct = some s ∧ s ≠ 0 ∧ s < 10)

/-- C2 (amended): a drive not classified Critical is classified Warning
exactly when a cumulative reallocated/pending/media counter is positive, or
its temperature reaches a warning or operational-max threshold set to a
nonzero value, or (NVMe) its spare percentage is set to a nonzero value
below 10; otherwise it is classified Healthy. -/
theorem classify_warning_iff (d : DriveHealth)
    (hnc : classify d ≠ Severity.critical) :
    (classify d = Severity.warning ↔ specWarningCond d) ∧
    (¬ specWarningCond d → classify d = Severity.healthy) := by
  have hcond : ¬ (d.reallocated_sectors_24h > 0 ∨ d.pending_sectors_24h > 0 ∨
      d.media_errors_24h > 0 ∨ (tempFlags d).1 = true) := by
    intro hc
    exact hnc (by unfold classify; rw [if_pos hc])
  have hflag1 : (tempFlags d).1 = false := by
    rcases h : (tempFlags d).1 with _ | _
    · rfl
    · exact absurd (Or.inr (Or.inr (Or.inr h))) hcond
  have hflag2 : (tempFlags d).2 = true ↔
      ((∃ t w, d.temperature_current = some t ∧ d.temperature_warning = some w ∧
        w ≠ 0 ∧ w ≤ t) ∨
       (∃ t m, d.temperature_current = some t ∧
         d.temperature_operational_max = some m ∧ m ≠ 0 ∧ m ≤ t)) := by
    rcases hcur : d.temperature_current with _ | t
    · have hTF : tempFlags d = (false, false) := by unfold tempFlags; rw [hcur]
      simp [hTF, hcur]
    · have hTF : tempFlags d =
          (if (truthy d.temperature_critical &&
              decide (d.temperature_critical.getD 0 ≤ t)) = true then (true, false)
          else if (truthy d.temperature_warning &&
              decide (d.temperature_warning.getD 0 ≤ t)) = true then (false, true)
          else if (truthy d.temperature_operational_max &&
              decide (d.temperature_operational_max.getD 0 ≤ t)) = true then (false, true)
          else (false, false)) := by
        unfold tempFlags
        rw [hcur]
      have h1 := hflag1
      rw [hTF] at h1 ⊢
      by_cases hC : (truthy d.temperature_critical &&
          decide (d.temperature_critical.getD 0 ≤ t)) = true
      · rw [if_pos hC] at h1
        exact absurd h1 (by decide)
      · rw [if_neg hC] at h1 ⊢
        constructor
        · intro h2
          by_cases hW : (truthy d.temperature_warning &&
              decide (d.temperature_warning.getD 0 ≤ t)) = true
          · left
            rcases hw' : d.temperature_warning with _ | w
            · rw [hw'] at hW
              exact absurd hW (by simp [truthy])
            · rw [hw'] at hW
              rw [Bool.and_eq_true, decide_eq_true_eq] at hW
              refine ⟨t, w, rfl, rfl, ?_, hW.2⟩
              simpa [truthy, bne_iff_ne] using hW.1
          · rw [if_neg hW] at h2
            by_cases hM : (truthy d.temperature_operational_max &&
                decide (d.temperature_operational_max.getD 0 ≤ t)) = true
            · right
              rcases hm' : d.temperature_operational_max with _ | m
              · rw [hm'] at hM
                exact absurd hM (by simp [truthy])
              · rw [hm'] at hM
                rw [Bool.and_eq_true, decide_eq_true_eq] at hM
                refine ⟨t, m, rfl, rfl, ?_, hM.2⟩
                simpa [truthy, bne_iff_ne] using hM.1
            · rw [if_neg hM] at h2
              exact absurd h2 (by decide)
        · intro h2
          rcases h2 with ⟨t', w, ht', hw', hw0, hwle⟩ | ⟨t', m, ht', hm', hm0, hmle⟩
          · injection ht' with ht''
            subst ht''
            have hW : (truthy d.temperature_warning &&
                decide (d.temperature_warning.getD 0 ≤ t)) = true := by
              rw [hw']
              simp [truthy, bne_iff_ne, hw0, hwle]
            rw [if_pos hW]
          · injection ht' with ht''
            subst ht''
            have hM : (truthy d.temperature_operational_max &&
                decide (d.temperature_operational_max.getD 0 ≤ t)) = true := by
              rw [hm']
              simp [truthy, bne_iff_ne, hm0, hmle]
            by_cases hW : (truthy d.temperature_warning &&
                decide (d.temperature_warning.getD 0 ≤ t)) = true
            · rw [if_pos hW]
            · rw [if_neg hW, if_pos hM]
  have hspare : (d.drive_type = "nvme" ∧ truthy d.available_spare_pct = true ∧
      d.available_spare_pct.getD 0 < 10) ↔
      (d.drive_type = "nvme" ∧ ∃ s, d.available_spare_pct = some s ∧ s ≠ 0 ∧ s < 10) := by
    cases hs : d.available_spare_pct with
    | none => simp [truthy]
    | some s =>
      simp [truthy, bne_iff_ne]
  have hcondeq : (d.reallocated_sectors_total > 0 ∨ d.pending_sectors_total > 0 ∨
      d.media_errors_total > 0 ∨ (tempFlags d).2 = true ∨
      (d.drive_type = "nvme" ∧ truthy d.available_spare_pct = true ∧
        d.available_spare_pct.getD 0 < 10)) ↔ specWarningCond d := by
    unfold specWarningCond
    constructor
    · rintro (h | h | h | h | h)
      · exact Or.inl h
      · exact Or.inr (Or.inl h)
      · exact Or.inr (Or.inr (Or.inl h))
      · rcases hflag2.mp h with h' | h'
        · exact Or.inr (Or.inr (Or.inr (Or.inl h')))
        · exact Or.inr (Or.inr (Or.inr (Or.inr (Or.inl h'))))
      · exact Or.inr (Or.inr (Or.inr (Or.inr (Or.inr (hspare.mp h)))))
    · rintro (h | h | h | h | h | h)
      · exact Or.inl h
      · exact Or.inr (Or.inl h)
      · exact Or.inr (Or.inr (Or.inl h))
      · exact Or.inr (Or.inr (Or.inr (Or.inl (hflag2.mpr (Or.inl h)))))
      · exact Or.inr (Or.inr (Or.inr (Or.inl (hflag2.mpr (Or.inr h)))))
      · exact Or.inr (Or.inr (Or.inr (Or.inr (hspare.mpr h))))
  have hiff : classify d = Severity.warning ↔ specWarningCond d := by
    unfold classify
    rw [if_neg hcond]
    by_cases hw2 : (d.reallocated_sectors_total > 0 ∨ d.pending_sectors_total > 0 ∨
        d.media_errors_total > 0 ∨ (tempFlags d).2 = true ∨
        (d.drive_type = "nvme" ∧ truthy d.available_spare_pct = true ∧
          d.available_spare_pct.getD 0 < 10))
    · rw [if_pos hw2]
      simp only [true_iff]
      exact hcondeq.mp hw2
    · rw [if_neg hw2]
      constructor
      · intro h
        exact absurd h (by decide)
      · intro h
        exact absurd (hcondeq.mpr h) hw2
  refine ⟨hiff, fun hnw => ?_⟩
  cases hcl : classify d with
  | healthy => rfl
  | warning => exact absurd (hiff.mp hcl) hnw
  | critical => exact absurd hcl hnc

/-- A drive with one cumulative media error and no other trigger. -/
def mediaTotalDrive : DriveHealth :=
  { emptyDriveHealth "ata" "/dev/sdb" "SER" with media_errors_total := 1 }

theorem classify_warning_iff_witness :
    classify mediaTotalDrive ≠ Severity.critical ∧
    classify mediaTotalDrive = Severity.warning :=
  ⟨by decide, (classify_warning_iff mediaTotalDrive (by decide)).1.mpr
    (Or.inr (Or.inr (Or.inl (by decide))))⟩

/-- A drive whose only nonzero window-delta counter is the read-error delta. -/
def readErrorOnlyDrive : DriveHealth :=
  { emptyDriveHealth "ata" "/dev/sdc" "SER" with read_errors_24h := 1 }

/-- C3 counterexample: with a single drive whose read-error window-delta is 1
and every other delta 0, the sum over all five counter kinds is 1, yet the
aggregate total_errors_24h is 0 — the source sums only four kinds and omits
the read-error delta. -/
theorem total_errors_24h_cex :
    readErrorOnlyDrive.reallocated_sectors_24h + readErrorOnlyDrive.pending_sectors_24h +
      readErrorOnlyDrive.uncorrectable_sectors_24h + readErrorOnlyDrive.read_errors_24h +
      readErrorOnlyDrive.media_errors_24h = 1 ∧
    (systemHealthOfDrives 0 [readErrorOnlyDrive]).total_errors_24h = 0 := by
  constructor
  · rfl
  · rfl

theorem sum_map_add_four (l : List DriveHealth) :
    (l.map (fun d => d.reallocated_sectors_24h + d.pending_sectors_24h +
      d.uncorrectable_sectors_24h + d.media_errors_24h)).sum =
      (l.map (fun d => d.reallocated_sectors_24h)).sum +
      (l.map (fun d => d.pending_sectors_24h)).sum +
      (l.map (fun d => d.uncorrectable_sectors_24h)).sum +
      (l.map (fun d => d.media_errors_24h)).sum := by
  induction l with
  | nil => simp
  | cons x xs ih =>
    simp only [List.map_cons, List.sum_cons, ih]
    ring

/-- C3 (amended): the aggregate total_errors_24h equals the sum over all
devices of the window-delta counters of four kinds — reallocation, pending,
uncorrectable and media; read-error window-deltas are excluded. -/
theorem total_errors_24h_four_kinds (now : Int) (drives : List DriveHealth) :
    (systemHealthOfDrives now drives).total_errors_24h =
      (drives.map (fun d => d.reallocated_sectors_24h)).sum +
      (drives.map (fun d => d.pending_sectors_24h)).sum +
      (drives.map (fun d => d.uncorrectable_sectors_24h)).sum +
      (drives.map (fun d => d.media_errors_24h)).sum := by
  unfold systemHealthOfDrives
  by_cases h : drives.isEmpty
  · have hnil : drives = [] := by
      cases drives
      · rfl
      · simp at h
    subst hnil
    simp
  · simp only [h, Bool.false_eq_true, if_false]
    exact sum_map_add_four drives

theorem ataDelta_nonneg (df : List AtaRecord) (f24 : AtaRecord) (id : Nat)
    (total x : Int) (h : ataDelta df f24 id total = some x) : 0 ≤ x := by
  unfold ataDelta at h
  by_cases hc : ataColExists df id = true
  · rw [if_pos hc] at h
    rcases hfv : ataRowGetD df f24 id 0 with _ | fv
    · rw [hfv] at h
      simp at h
    · rw [hfv] at h
      simp only [Option.map_some', Option.some.injEq] at h
      subst h
      exact le_max_left 0 _
  · rw [if_neg hc] at h
    simp only [Option.some.injEq] at h
    omega

theorem ataDelta_eq (df : List AtaRecord) (f24 : AtaRecord) (id : Nat)
    (lv fv x : Int) (h : ataDelta df f24 id lv = some x)
    (hfv : ataRowGetD df f24 id 0 = some fv)
    (hlv : ataColExists df id = false → lv = 0) :
    x = max 0 (lv - fv) := by
  unfold ataDelta at h
  by_cases hc : ataColExists df id = true
  · rw [if_pos hc, hfv] at h
    simp only [Option.map_some', Option.some.injEq] at h
    omega
  · rw [if_neg hc] at h
    unfold ataRowGetD at hfv
    rw [if_neg hc] at hfv
    simp only [Option.some.injEq] at h hfv
    have h0 : lv = 0 := hlv (by simpa using hc)
    omega

theorem nvmeDelta_nonneg (df : List NvmeRecord) (f24 : NvmeRecord) (name : String)
    (total x : Int) (h : nvmeDelta df f24 name total = some x) : 0 ≤ x := by
  unfold nvmeDelta at h
  by_cases hc : nvmeColExists df name = true
  · rw [if_pos hc] at h
    rcases hfv : nvmeRowGetIntD df f24 name 0 with _ | fv
    · rw [hfv] at h
      simp at h
    · rw [hfv] at h
      simp only [Option.map_some', Option.some.injEq] at h
      subst h
      exact le_max_left 0 _
  · rw [if_neg hc] at h
    simp only [Option.some.injEq] at h
    omega

theorem nvmeDelta_eq (df : List NvmeRecord) (f24 : NvmeRecord) (name : String)
    (lv fv x : Int) (h : nvmeDelta df f24 name lv = some x)
    (hfv : nvmeRowGetIntD df f24 name 0 = some fv)
    (hlv : nvmeColExists df name = false → lv = 0) :
    x = max 0 (lv - fv) := by
  unfold nvmeDelta at h
  by_cases hc : nvmeColExists df name = true
  · rw [if_pos hc, hfv] at h
    simp only [Option.map_some', Option.some.injEq] at h
    omega
  · rw [if_neg hc] at h
    unfold nvmeRowGetIntD at hfv
    rw [if_neg hc] at hfv
    simp only [Option.some.injEq] at h hfv
    have h0 : lv = 0 := hlv (by simpa using hc)
    omega

theorem analyze_ata_health_inv (df : List AtaRecord) (s p : String)
    (t : Option ThresholdDict) (dh : DriveHealth) (latest : AtaRecord)
    (hA : analyze_ata_health df s p t = some dh)
    (hL : df.getLast? = some latest) :
    dh.temperature_current = ratOfInt? ((latest.rawOf 194).map (fun v => v % 256)) ∧
    ataRowGetD df latest 5 0 = some dh.reallocated_sectors_total ∧
    ataRowGetD df latest 197 0 = some dh.pending_sectors_total ∧
    ataRowGetD df latest 198 0 = some dh.uncorrectable_sectors_total ∧
    ataRowGetD df latest 1 0 = some dh.read_errors_total ∧
    (¬ (ataWindow df).length > 1 →
      dh.reallocated_sectors_24h = 0 ∧ dh.pending_sectors_24h = 0 ∧
      dh.uncorrectable_sectors_24h = 0 ∧ dh.read_errors_24h = 0) ∧
    (∀ first24, (ataWindow df).length > 1 → (ataWindow df).head? = some first24 →
      ataDelta df first24 5 dh.reallocated_sectors_total =
        some dh.reallocated_sectors_24h ∧
      ataDelta df first24 197 dh.pending_sectors_total =
        some dh.pending_sectors_24h ∧
      ataDelta df first24 198 dh.uncorrectable_sectors_total =
        some dh.uncorrectable_sectors_24h ∧
      ataDelta df first24 1 dh.read_errors_total =
        some dh.read_errors_24h) := by
  have hne : df.isEmpty = false := by
    cases df
    · simp at hL
    · rfl
  unfold analyze_ata_health at hA
  rw [hne] at hA
  simp only [Bool.false_eq_true, if_false] at hA
  rw [hL] at hA
  simp only [Option.bind_eq_bind', Option.some_bind, Option.bind_eq_some] at hA
  obtain ⟨rt, hrt, pt, hpt, ut, hut, ret, hret, hA⟩ := hA
  by_cases hlen : (ataWindow df).length > 1
  · rw [if_pos hlen] at hA
    rcases hhead0 : (ataWindow df).head? with _ | f0
    · rw [List.head?_eq_none_iff] at hhead0
      rw [hhead0] at hlen
      simp at hlen
    · rw [hhead0] at hA
      simp only [Option.bind_eq_bind', Option.some_bind, Option.bind_eq_some,
        Option.pure_def, Option.some.injEq, exists_eq_left, exists_eq_left'] at hA
      obtain ⟨a, ha, b, hb, c, hc, e, he, pw, hpw, pc, hpc, hAeq⟩ := hA
      subst hAeq
      refine ⟨rfl, hrt, hpt, hut, hret, fun h => absurd hlen h, ?_⟩
      intro first24 _ hh
      injection hh with hh'
      subst hh'
      exact ⟨ha, hb, hc, he⟩
  · rw [if_neg hlen] at hA
    simp only [Option.bind_eq_bind', Option.some_bind, Option.bind_eq_some,
      Option.pure_def, Option.some.injEq, exists_eq_left, exists_eq_left'] at hA
    obtain ⟨pw, hpw, pc, hpc, hAeq⟩ := hA
    subst hAeq
    exact ⟨rfl, hrt, hpt, hut, hret, fun _ => ⟨rfl, rfl, rfl, rfl⟩,
      fun first24 hl _ => absurd hl hlen⟩

theorem analyze_nvme_health_inv (df : List NvmeRecord) (s p : String)
    (t : Option ThresholdDict) (dh : DriveHealth) (latest : NvmeRecord)
    (hA : analyze_nvme_health df s p t = some dh)
    (hL : df.getLast? = some latest) :
    nvmeRowGetIntD df latest "media_and_data_integrity_errors" 0 =
      some dh.media_errors_total ∧
    (¬ (nvmeWindow df).length > 1 → dh.media_errors_24h = 0) ∧
    (∀ first24, (nvmeWindow df).length > 1 → (nvmeWindow df).head? = some first24 →
      nvmeDelta df first24 "media_and_data_integrity_errors" dh.media_errors_total =
        some dh.media_errors_24h) := by
  have hne : df.isEmpty = false := by
    cases df
    · simp at hL
    · rfl
  unfold analyze_nvme_health at hA
  rw [hne] at hA
  simp only [Bool.false_eq_true, if_false] at hA
  rw [hL] at hA
  simp only [Option.bind_eq_bind', Option.some_bind, Option.bind_eq_some] at hA
  obtain ⟨tc, htc, mt, hmt, hA⟩ := hA
  by_cases hlen : (nvmeWindow df).length > 1
  · rw [if_pos hlen] at hA
    rcases hhead0 : (nvmeWindow df).head? with _ | f0
    · rw [List.head?_eq_none_iff] at hhead0
      rw [hhead0] at hlen
      simp at hlen
    · rw [hhead0] at hA
      simp only [Option.bind_eq_bind', Option.some_bind, Option.bind_eq_some,
        Option.pure_def, Option.some.injEq, exists_eq_left, exists_eq_left'] at hA
      obtain ⟨m24, hm24, sp, hsp, pu, hpu, ab, hab, po, hpo, pcy, hpcy, hAeq⟩ := hA
      subst hAeq
      refine ⟨hmt, fun h => absurd hlen h, ?_⟩
      intro first24 _ hh
      injection hh with hh'
      subst hh'
      exact hm24
  · rw [if_neg hlen] at hA
    simp only [Option.bind_eq_bind', Option.some_bind, Option.bind_eq_some,
      Option.pure_def, Option.some.injEq, exists_eq_left, exists_eq_left'] at hA
    obtain ⟨sp, hsp, pu, hpu, ab, hab, po, hpo, pcy, hpcy, hAeq⟩ := hA
    subst hAeq
    exact ⟨hmt, fun _ => rfl, fun first24 hl _ => absurd hl hlen⟩

theorem ataDelta_window_eq (df : List AtaRecord) (latest first24 : AtaRecord)
    (id : Nat) (dtot d24 lv fv : Int)
    (htot : ataRowGetD df latest id 0 = some dtot)
    (hdelta : ataDelta df first24 id dtot = some d24)
    (hlv : ataRowGetD df latest id 0 = some lv)
    (hfv : ataRowGetD df first24 id 0 = some fv) :
    d24 = max 0 (lv - fv) := by
  rw [htot] at hlv
  injection hlv with h
  subst h
  refine ataDelta_eq df first24 id dtot fv d24 hdelta hfv ?_
  intro hc
  unfold ataRowGetD at htot
  rw [hc] at htot
  simp at htot
  omega

theorem nvmeDelta_window_eq (df : List NvmeRecord) (latest first24 : NvmeRecord)
    (name : String) (dtot d24 lv fv : Int)
    (htot : nvmeRowGetIntD df latest name 0 = some dtot)
    (hdelta : nvmeDelta df first24 name dtot = some d24)
    (hlv : nvmeRowGetIntD df latest name 0 = some lv)
    (hfv : nvmeRowGetIntD df first24 name 0 = some fv) :
    d24 = max 0 (lv - fv) := by
  rw [htot] at hlv
  injection hlv with h
  subst h
  refine nvmeDelta_eq df first24 name dtot fv d24 hdelta hfv ?_
  intro hc
  unfold nvmeRowGetIntD at htot
  rw [hc] at htot
  simp at htot
  omega

/-- C4: for both analyzers every window-delta counter is nonnegative on any
input, and whenever the trailing window holds at least two records the delta
equals max(0, latest value − first value in the window) for its counter
kind — negative raw differences (counter resets) are clamped to 0. -/
theorem window_delta_spec :
    (∀ (df : List AtaRecord) (s p : String) (t : Option ThresholdDict)
        (dh : DriveHealth),
      analyze_ata_health df s p t = some dh →
      (0 ≤ dh.reallocated_sectors_24h ∧ 0 ≤ dh.pending_sectors_24h ∧
        0 ≤ dh.uncorrectable_sectors_24h ∧ 0 ≤ dh.read_errors_24h) ∧
      (∀ latest first24, df.getLast? = some latest →
        2 ≤ (ataWindow df).length → (ataWindow df).head? = some first24 →
        (∀ lv fv, ataRowGetD df latest 5 0 = some lv →
          ataRowGetD df first24 5 0 = some fv →
          dh.reallocated_sectors_24h = max 0 (lv - fv)) ∧
        (∀ lv fv, ataRowGetD df latest 197 0 = some lv →
          ataRowGetD df first24 197 0 = some fv →
          dh.pending_sectors_24h = max 0 (lv - fv)) ∧
        (∀ lv fv, ataRowGetD df latest 198 0 = some lv →
          ataRowGetD df first24 198 0 = some fv →
          dh.uncorrectable_sectors_24h = max 0 (lv - fv)) ∧
        (∀ lv fv, ataRowGetD df latest 1 0 = some lv →
          ataRowGetD df first24 1 0 = some fv →
          dh.read_errors_24h = max 0 (lv - fv)))) ∧
    (∀ (df : List NvmeRecord) (s p : String) (t : Option ThresholdDict)
        (dh : DriveHealth),
      analyze_nvme_health df s p t = some dh →
      0 ≤ dh.media_errors_24h ∧
      (∀ latest first24, df.getLast? = some latest →
        2 ≤ (nvmeWindow df).length → (nvmeWindow df).head? = some first24 →
        ∀ lv fv,
          nvmeRowGetIntD df latest "media_and_data_integrity_errors" 0 = some lv →
          nvmeRowGetIntD df first24 "media_and_data_integrity_errors" 0 = some fv →
          dh.media_errors_24h = max 0 (lv - fv))) := by
  constructor
  · intro df s p t dh hA
    cases df with
    | nil =>
      rw [show analyze_ata_health [] s p t = some (emptyDriveHealth "ata" p s) from rfl]
        at hA
      simp only [Option.some.injEq] at hA
      subst hA
      refine ⟨⟨le_refl 0, le_refl 0, le_refl 0, le_refl 0⟩, ?_⟩
      intro latest first24 hlat
      simp at hlat
    | cons a as =>
      rcases hgl : (a :: as).getLast? with _ | latest
      · rw [List.getLast?_eq_none_iff] at hgl
        exact absurd hgl (by simp)
      obtain ⟨_, h5, h197, h198, h1, hz, hd⟩ :=
        analyze_ata_health_inv (a :: as) s p t dh latest hA hgl
      constructor
      · by_cases hlen : (ataWindow (a :: as)).length > 1
        · rcases hh : (ataWindow (a :: as)).head? with _ | f0
          · rw [List.head?_eq_none_iff] at hh
            rw [hh] at hlen
            simp at hlen
          · obtain ⟨d5, d197, d198, d1⟩ := hd f0 hlen hh
            exact ⟨ataDelta_nonneg _ _ _ _ _ d5, ataDelta_nonneg _ _ _ _ _ d197,
              ataDelta_nonneg _ _ _ _ _ d198, ataDelta_nonneg _ _ _ _ _ d1⟩
        · obtain ⟨e5, e197, e198, e1⟩ := hz hlen
          refine ⟨?_, ?_, ?_, ?_⟩ <;> omega
      · intro latest' first24 hlat' hlen2 hhead
        injection hlat' with hlat''
        subst hlat''
        have hlen : (ataWindow (a :: as)).length > 1 := by omega
        obtain ⟨d5, d197, d198, d1⟩ := hd first24 hlen hhead
        refine ⟨?_, ?_, ?_, ?_⟩
        · intro lv fv hlv hfv
          exact ataDelta_window_eq _ _ _ _ _ _ _ _ h5 d5 hlv hfv
        · intro lv fv hlv hfv
          exact ataDelta_window_eq _ _ _ _ _ _ _ _ h197 d197 hlv hfv
        · intro lv fv hlv hfv
          exact ataDelta_window_eq _ _ _ _ _ _ _ _ h198 d198 hlv hfv
        · intro lv fv hlv hfv
          exact ataDelta_window_eq _ _ _ _ _ _ _ _ h1 d1 hlv hfv
  · intro df s p t dh hA
    cases df with
    | nil =>
      rw [show analyze_nvme_health [] s p t = some (emptyDriveHealth "nvme" p s) from rfl]
        at hA
      simp only [Option.some.injEq] at hA
      subst hA
      refine ⟨le_refl 0, ?_⟩
      intro latest first24 hlat
      simp at hlat
    | cons a as =>
      rcases hgl : (a :: as).getLast? with _ | latest
      · rw [List.getLast?_eq_none_iff] at hgl
        exact absurd hgl (by simp)
      obtain ⟨hm, hz, hd⟩ :=
        analyze_nvme_health_inv (a :: as) s p t dh latest hA hgl
      constructor
      · by_cases hlen : (nvmeWindow (a :: as)).length > 1
        · rcases hh : (nvmeWindow (a :: as)).head? with _ | f0
          · rw [List.head?_eq_none_iff] at hh
            rw [hh] at hlen
            simp at hlen
          · exact nvmeDelta_nonneg _ _ _ _ _ (hd f0 hlen hh)
        · have := hz hlen
          omega
      · intro latest' first24 hlat' hlen2 hhead
        injection hlat' with hlat''
        subst hlat''
        have hlen : (nvmeWindow (a :: as)).length > 1 := by omega
        intro lv fv hlv hfv
        exact nvmeDelta_window_eq _ _ _ _ _ _ _ _ hm (hd first24 hlen hhead) hlv hfv

/-- First record of the witness ATA frame: reallocated raw 5, pending raw 0,
uncorrectable raw 0, read-error raw 7. -/
def wdAtaFirst : AtaRecord :=
  { timestamp := 0, attrs := [(5, 100, 5), (197, 100, 0), (198, 100, 0), (1, 100, 7)] }

/-- Latest record of the witness ATA frame: reallocated raw drops to 3 (a
counter reset), pending rises to 2. -/
def wdAtaLast : AtaRecord :=
  { timestamp := 3600, attrs := [(5, 100, 3), (197, 100, 2), (198, 100, 0), (1, 100, 7)] }

def wdAtaDf : List AtaRecord := [wdAtaFirst, wdAtaLast]

def wdAtaDh : DriveHealth :=
  { device_path := "p"
    drive_type := "ata"
    serial := "s"
    temperature_current := none
    temperature_max_24h := none
    temperature_mean_24h := none
    temperature_critical := some 70
    temperature_operational_max := some 60
    reallocated_sectors_total := 3
    pending_sectors_total := 2
    read_errors_total := 7
    pending_sectors_24h := 2
    last_updated := some 3600 }

def wdNvmeFirst : NvmeRecord :=
  { timestamp := 0, attrs := [("media_and_data_integrity_errors", NvmeValue.intval 0)] }

def wdNvmeLast : NvmeRecord :=
  { timestamp := 3600, attrs := [("media_and_data_integrity_errors", NvmeValue.intval 1)] }

def wdNvmeDf : List NvmeRecord := [wdNvmeFirst, wdNvmeLast]

def wdNvmeDh : DriveHealth :=
  { device_path := "p"
    drive_type := "nvme"
    serial := "s"
    temperature_current := none
    temperature_max_24h := none
    temperature_mean_24h := none
    temperature_warning := some 85
    temperature_critical := some 95
    temperature_operational_max := some 85
    media_errors_total := 1
    media_errors_24h := 1
    last_updated := some 3600 }

theorem window_delta_spec_witness :
    analyze_ata_health wdAtaDf "s" "p" none = some wdAtaDh ∧
    wdAtaDh.reallocated_sectors_24h = max 0 ((3 : Int) - 5) ∧
    wdAtaDh.pending_sectors_24h = max 0 ((2 : Int) - 0) ∧
    0 ≤ wdAtaDh.reallocated_sectors_24h ∧
    analyze_nvme_health wdNvmeDf "s" "p" none = some wdNvmeDh ∧
    wdNvmeDh.media_errors_24h = max 0 ((1 : Int) - 0) := by
  have hA : analyze_ata_health wdAtaDf "s" "p" none = some wdAtaDh := by rfl
  have hN : analyze_nvme_health wdNvmeDf "s" "p" none = some wdNvmeDh := by rfl
  have h1 := window_delta_spec.1 wdAtaDf "s" "p" none wdAtaDh hA
  have h2 := window_delta_spec.2 wdNvmeDf "s" "p" none wdNvmeDh hN
  have hdeltas := h1.2 wdAtaLast wdAtaFirst rfl (by decide) rfl
  refine ⟨hA, ?_, ?_, h1.1.1, hN, ?_⟩
  · exact hdeltas.1 3 5 rfl rfl
  · exact hdeltas.2.1 2 0 rfl rfl
  · exact h2.2 wdNvmeLast wdNvmeFirst rfl (by decide) rfl 1 0 rfl rfl

/-- C7: the ATA analyzer decodes the current temperature as the lower 8 bits
of the raw temperature reading of the latest record; upper bits are ignored. -/
theorem ata_temperature_lower_byte (df : List AtaRecord) (s p : String)
    (t : Option ThresholdDict) (dh : DriveHealth) (latest : AtaRecord) (v : Int)
    (hA : analyze_ata_health df s p t = some dh)
    (hL : df.getLast? = some latest)
    (hv : latest.rawOf 194 = some v) :
    dh.temperature_current = some ((v % 256 : Int) : ℚ) := by
  obtain ⟨htemp, -, -, -, -, -, -⟩ := analyze_ata_health_inv df s p t dh latest hA hL
  rw [htemp, hv]
  rfl

/-- Single-record witness frame whose raw temperature is 0x021F = 543. -/
def tempRec : AtaRecord := { timestamp := 0, attrs := [(194, 69, 543)] }

def tempDf : List AtaRecord := [tempRec]

/-- The DriveHealth the analyzer produces on `tempDf` (extracted from the
analyzer itself so the witness equation holds by reduction). -/
def tempDh : DriveHealth :=
  (analyze_ata_health tempDf "s" "p" none).getD (emptyDriveHealth "ata" "" "")

theorem ata_temperature_lower_byte_witness :
    (0x021F : Int) = 543 ∧
    analyze_ata_health tempDf "s" "p" none = some tempDh ∧
    tempDh.temperature_current = some ((543 % 256 : Int) : ℚ) ∧
    ((543 % 256 : Int) : ℚ) = 31 := by
  have hA : analyze_ata_health tempDf "s" "p" none = some tempDh := rfl
  refine ⟨by norm_num, hA, ?_, by norm_num⟩
  exact ata_temperature_lower_byte tempDf "s" "p" none tempDh tempRec 543 hA rfl rfl
